import Mathlib

/-!
Verification of the `custom_errors` module of
`src/lambda/aws-text-to-sql/query_generator/custom_errors.py`.

The module defines three exception classes:

  class LLMNotLoadedException(Exception):
      def __init__(self, message):
          super().__init__(message)
          self.message = f"[501] The LLM \x7bmessage\x7d was not loaded correctly"

  class StrategyNotFoundException(Exception):
      def __init__(self, message):
          super().__init__(message)
          self.message = f"[503] The selected strategy \x7bmessage\x7d doesn't exist"

  class QueryGenerationException(Exception):
      def __init__(self, message):
          super().__init__(message)
          self.message = f"[502] Failed to generate query \x7bmessage\x7d."

We shallowly embed the module: each exception instance becomes an immutable
Lean value recording the class tag (`kind`), the tuple of arguments passed to
the base `Exception` initializer (`args`), and the formatted `message`
attribute set by the subclass initializer.
-/

namespace CustomErrors

/-- Python runtime values that can be passed as the single argument of the
constructors.  The source has no type annotation on `message`, so any Python
object is accepted; we model the representative cases the f-string can
format: strings, arbitrary-precision integers, `None` and booleans. -/
inductive PyValue where
  | str (s : String)
  | int (n : Int)
  | none
  | bool (b : Bool)
deriving DecidableEq, Repr

/-- Python `str()` conversion as the f-string `\x7bmessage\x7d` placeholder applies it:
a string interpolates verbatim, an integer by its decimal representation,
`None` as "None", booleans as "True"/"False". -/
def pyStr : PyValue → String
  | .str s => s
  | .int n => toString n
  | .none => "None"
  | .bool b => if b then "True" else "False"

/-- The class tag of an exception instance: one tag per exception class
defined in the module. -/
inductive FailureKind where
  | ModelNotLoaded
  | QueryGenerationFailed
  | StrategyNotFound
deriving DecidableEq, Repr

/-- An exception instance as constructed by the module: the class tag, the
`args` tuple stored by `Exception.__init__`, and the `message` attribute set
by the subclass initializer. -/
structure FailureInstance where
  kind : FailureKind
  args : List PyValue
  message : String
deriving DecidableEq, Repr

/-- `LLMNotLoadedException.__init__` on an arbitrary Python value:
`super().__init__(message)` stores the raw argument in `args`, then
`self.message` is set to the interpolated template. -/
def LLMNotLoadedExceptionV (v : PyValue) : FailureInstance :=
  { kind := .ModelNotLoaded
    args := [v]
    message := "[501] The LLM " ++ pyStr v ++ " was not loaded correctly" }

/-- `StrategyNotFoundException.__init__` on an arbitrary Python value. -/
def StrategyNotFoundExceptionV (v : PyValue) : FailureInstance :=
  { kind := .StrategyNotFound
    args := [v]
    message := "[503] The selected strategy " ++ pyStr v ++ " doesn't exist" }

/-- `QueryGenerationException.__init__` on an arbitrary Python value. -/
def QueryGenerationExceptionV (v : PyValue) : FailureInstance :=
  { kind := .QueryGenerationFailed
    args := [v]
    message := "[502] Failed to generate query " ++ pyStr v ++ "." }

/-- `LLMNotLoadedException` applied to a string detail (the typical call). -/
def LLMNotLoadedException (m : String) : FailureInstance :=
  LLMNotLoadedExceptionV (.str m)

/-- `StrategyNotFoundException` applied to a string detail. -/
def StrategyNotFoundException (s : String) : FailureInstance :=
  StrategyNotFoundExceptionV (.str s)

/-- `QueryGenerationException` applied to a string detail. -/
def QueryGenerationException (d : String) : FailureInstance :=
  QueryGenerationExceptionV (.str d)

/-- The module's construction interface on string details, indexed by kind:
dispatches to the constructor of the corresponding exception class. -/
def construct : FailureKind → String → FailureInstance
  | .ModelNotLoaded, d => LLMNotLoadedException d
  | .QueryGenerationFailed, d => QueryGenerationException d
  | .StrategyNotFound, d => StrategyNotFoundException d

/-- Reads a decimal number from the front of a character list up to a
closing bracket: used to extract the numeric code embedded at the head of
every formatted message. -/
def readDigits : List Char → Nat → Option Nat
  | [], _ => Option.none
  | c :: cs, acc =>
    if c = ']' then some acc
    else if c.isDigit then readDigits cs (acc * 10 + (c.toNat - 48)) else Option.none

/-- The numeric code exposed at the head of a message, i.e. the number `n`
when the string starts with the bracketed token `[n]`. -/
def leadingCode (s : String) : Option Nat :=
  match s.data with
  | c :: cs => if c = '[' then readDigits cs 0 else Option.none
  | [] => Option.none

/-- The fixed per-class numeric code appearing in each message template of
the source: 501 for `LLMNotLoadedException`, 502 for
`QueryGenerationException`, 503 for `StrategyNotFoundException`. -/
def codeOf : FailureKind → Nat
  | .ModelNotLoaded => 501
  | .QueryGenerationFailed => 502
  | .StrategyNotFound => 503

/-- Modelled from the spec: the pure derivation `render(kind, detail) ->
message` of section 9 ("Message built in a constructor/initializer → pure
derivation function"), written from the spec's templates of section 4.1. -/
def render : FailureKind → String → String
  | .ModelNotLoaded, d => "[501] The LLM " ++ d ++ " was not loaded correctly"
  | .QueryGenerationFailed, d => "[502] Failed to generate query " ++ d ++ "."
  | .StrategyNotFound, d => "[503] The selected strategy " ++ d ++ " doesn't exist"

/-- Python `str(e)` on an exception instance: with a single element in
`args` (the only shape this module produces) it returns that element's
`str()`; an empty `args` renders as the empty string. -/
def pyExceptionStr (f : FailureInstance) : String :=
  match f.args with
  | [v] => pyStr v
  | _ => ""

/-- The module's full interface, one operation per exception class
constructor; no operation of the module takes an existing instance as
input. -/
inductive ModuleOp where
  | llmNotLoaded (d : String)
  | strategyNotFound (d : String)
  | queryGeneration (d : String)
deriving DecidableEq, Repr

/-- The kind of instance an operation constructs. -/
def ModuleOp.kind : ModuleOp → FailureKind
  | .llmNotLoaded _ => .ModelNotLoaded
  | .strategyNotFound _ => .StrategyNotFound
  | .queryGeneration _ => .QueryGenerationFailed

/-- The detail string an operation carries. -/
def ModuleOp.detail : ModuleOp → String
  | .llmNotLoaded d => d
  | .strategyNotFound d => d
  | .queryGeneration d => d

/-- Running a module operation against the multiset of previously
constructed instances: a fresh instance is constructed and appended; no
existing instance is touched (the module has no mutating operation). -/
def runOp (op : ModuleOp) (σ : List FailureInstance) :
    FailureInstance × List FailureInstance :=
  let f := construct op.kind op.detail
  (f, σ ++ [f])

end CustomErrors

namespace CustomErrors

/-! ## Helper lemmas -/

/-- Two strings of different length are different. -/
theorem ne_of_length_lt {s t : String} (h : s.length < t.length) : s ≠ t := by
  intro e
  rw [e] at h
  exact lt_irrefl _ h

/-- The bracketed code at the head of every `LLMNotLoadedException` message
is 501, whatever value was interpolated. -/
theorem leadingCode_llmV (v : PyValue) :
    leadingCode (LLMNotLoadedExceptionV v).message = some 501 := by
  have h : (LLMNotLoadedExceptionV v).message.data
      = '[' :: '5' :: '0' :: '1' :: ']' ::
        (" The LLM ".data ++ (pyStr v).data ++ " was not loaded correctly".data) := by
    simp [LLMNotLoadedExceptionV, String.data_append]
  simp [leadingCode, h, readDigits]

/-- The bracketed code at the head of every `QueryGenerationException`
message is 502, whatever value was interpolated. -/
theorem leadingCode_qgV (v : PyValue) :
    leadingCode (QueryGenerationExceptionV v).message = some 502 := by
  have h : (QueryGenerationExceptionV v).message.data
      = '[' :: '5' :: '0' :: '2' :: ']' ::
        (" Failed to generate query ".data ++ (pyStr v).data ++ ".".data) := by
    simp [QueryGenerationExceptionV, String.data_append]
  simp [leadingCode, h, readDigits]

/-- The bracketed code at the head of every `StrategyNotFoundException`
message is 503, whatever value was interpolated. -/
theorem leadingCode_snfV (v : PyValue) :
    leadingCode (StrategyNotFoundExceptionV v).message = some 503 := by
  have h : (StrategyNotFoundExceptionV v).message.data
      = '[' :: '5' :: '0' :: '3' :: ']' ::
        (" The selected strategy ".data ++ (pyStr v).data ++ " doesn't exist".data) := by
    simp [StrategyNotFoundExceptionV, String.data_append]
  simp [leadingCode, h, readDigits]

/-- The length of an `LLMNotLoadedException` message exceeds the detail by
the 39 template characters. -/
theorem length_message_llm (d : String) :
    (LLMNotLoadedException d).message.length = d.length + 39 := by
  show ("[501] The LLM " ++ d ++ " was not loaded correctly").length = d.length + 39
  rw [String.length_append, String.length_append]
  have h1 : "[501] The LLM ".length = 14 := by decide
  have h2 : " was not loaded correctly".length = 25 := by decide
  omega

/-- The length of a `StrategyNotFoundException` message exceeds the detail
by the 42 template characters. -/
theorem length_message_snf (d : String) :
    (StrategyNotFoundException d).message.length = d.length + 42 := by
  show ("[503] The selected strategy " ++ d ++ " doesn't exist").length = d.length + 42
  rw [String.length_append, String.length_append]
  have h1 : "[503] The selected strategy ".length = 28 := by decide
  have h2 : " doesn't exist".length = 14 := by decide
  omega

/-- The length of a `QueryGenerationException` message exceeds the detail by
the 32 template characters. -/
theorem length_message_qg (d : String) :
    (QueryGenerationException d).message.length = d.length + 32 := by
  show ("[502] Failed to generate query " ++ d ++ ".").length = d.length + 32
  rw [String.length_append, String.length_append]
  have h1 : "[502] Failed to generate query ".length = 31 := by decide
  have h2 : ".".length = 1 := by decide
  omega

end CustomErrors

namespace CustomErrors

/-! ## Claim theorems -/

/-- Claim C1: for every detail string, the numeric code exposed at the head
of the message of each of the three constructors is determined solely by its
kind — 501 for `LLMNotLoadedException`, 502 for `QueryGenerationException`,
503 for `StrategyNotFoundException`.  The construction interface takes only
the kind and the detail, so the code is never independently settable, and it
does not change when the same kind is re-constructed with a different
detail. -/
theorem claim_C1_code_determined_by_kind :
    (∀ d : String, leadingCode (LLMNotLoadedException d).message = some 501) ∧
    (∀ d : String, leadingCode (QueryGenerationException d).message = some 502) ∧
    (∀ d : String, leadingCode (StrategyNotFoundException d).message = some 503) ∧
    (∀ (k : FailureKind) (d : String),
      leadingCode (construct k d).message = some (codeOf k)) ∧
    (∀ (k : FailureKind) (d₁ d₂ : String),
      leadingCode (construct k d₁).message = leadingCode (construct k d₂).message) := by
  refine ⟨fun d => leadingCode_llmV (.str d),
          fun d => leadingCode_qgV (.str d),
          fun d => leadingCode_snfV (.str d), ?_, ?_⟩
  · intro k d
    cases k with
    | ModelNotLoaded => exact leadingCode_llmV (.str d)
    | QueryGenerationFailed => exact leadingCode_qgV (.str d)
    | StrategyNotFound => exact leadingCode_snfV (.str d)
  · intro k d₁ d₂
    cases k with
    | ModelNotLoaded =>
        exact (leadingCode_llmV (.str d₁)).trans (leadingCode_llmV (.str d₂)).symm
    | QueryGenerationFailed =>
        exact (leadingCode_qgV (.str d₁)).trans (leadingCode_qgV (.str d₂)).symm
    | StrategyNotFound =>
        exact (leadingCode_snfV (.str d₁)).trans (leadingCode_snfV (.str d₂)).symm

/-- Claim C2: for every string m, `LLMNotLoadedException(m)` has a `message`
that is exactly the concatenation of the literal "[501] The LLM ", m
verbatim and " was not loaded correctly". -/
theorem claim_C2_llm_message_template :
    ∀ m : String,
      (LLMNotLoadedException m).message
        = "[501] The LLM " ++ m ++ " was not loaded correctly" :=
  fun _ => rfl

/-- Claim C3: for every string s, `StrategyNotFoundException(s)` has a
`message` that is exactly the concatenation of "[503] The selected strategy ",
s verbatim and " doesn't exist". -/
theorem claim_C3_snf_message_template :
    ∀ s : String,
      (StrategyNotFoundException s).message
        = "[503] The selected strategy " ++ s ++ " doesn't exist" :=
  fun _ => rfl

/-- Claim C4: for every string d, `QueryGenerationException(d)` has a
`message` that is exactly "[502] Failed to generate query " followed by d
verbatim and a trailing period. -/
theorem claim_C4_qg_message_template :
    ∀ d : String,
      (QueryGenerationException d).message
        = "[502] Failed to generate query " ++ d ++ "." :=
  fun _ => rfl

/-- Claim C5: construction is total — each constructor is a total function
yielding the fully determined instance for every input string, performing no
validation, rejection or escaping of the detail; this includes the empty
string and strings holding the templates' own literal tokens such as
"[501]" or the brace-quoted placeholder names. -/
theorem claim_C5_construction_total :
    (∀ m : String, LLMNotLoadedException m
      = { kind := .ModelNotLoaded, args := [.str m],
          message := "[501] The LLM " ++ m ++ " was not loaded correctly" }) ∧
    (∀ s : String, StrategyNotFoundException s
      = { kind := .StrategyNotFound, args := [.str s],
          message := "[503] The selected strategy " ++ s ++ " doesn't exist" }) ∧
    (∀ d : String, QueryGenerationException d
      = { kind := .QueryGenerationFailed, args := [.str d],
          message := "[502] Failed to generate query " ++ d ++ "." }) ∧
    (LLMNotLoadedException "").message = "[501] The LLM  was not loaded correctly" ∧
    (LLMNotLoadedException "[501]").message
      = "[501] The LLM [501] was not loaded correctly" ∧
    (LLMNotLoadedException "\x7bmodelId\x7d").message
      = "[501] The LLM \x7bmodelId\x7d was not loaded correctly" ∧
    (QueryGenerationException "[502]").message
      = "[502] Failed to generate query [502]." ∧
    (StrategyNotFoundException "\x7bstrategyId\x7d").message
      = "[503] The selected strategy \x7bstrategyId\x7d doesn't exist" := by
  refine ⟨fun m => rfl, fun s => rfl, fun d => rfl, ?_, ?_, ?_, ?_, ?_⟩ <;> decide

/-- Claim C6: message derivation is deterministic — constructing the same
kind twice with equal detail strings yields equal `message` fields; the
message is a pure function of kind and detail computed at construction
time. -/
theorem claim_C6_message_deterministic
    (k : FailureKind) (d₁ d₂ : String) (h : d₁ = d₂) :
    (construct k d₁).message = (construct k d₂).message := by
  rw [h]

/-- Witness for claim C6 at the kind `ModelNotLoaded` and the detail
"gpt-sql-7b". -/
theorem claim_C6_message_deterministic_witness :
    (construct .ModelNotLoaded "gpt-sql-7b").message
      = (construct .ModelNotLoaded "gpt-sql-7b").message :=
  claim_C6_message_deterministic .ModelNotLoaded "gpt-sql-7b" "gpt-sql-7b" rfl

/-- Claim C7: the taxonomy is closed with exactly three kinds — every kind
is one of the three, the three are pairwise distinct, and every instance the
module constructs comes from one of the three exception class
constructors. -/
theorem claim_C7_taxonomy_closed :
    (∀ k : FailureKind,
      k = .ModelNotLoaded ∨ k = .QueryGenerationFailed ∨ k = .StrategyNotFound) ∧
    (FailureKind.ModelNotLoaded ≠ FailureKind.QueryGenerationFailed ∧
     FailureKind.ModelNotLoaded ≠ FailureKind.StrategyNotFound ∧
     FailureKind.QueryGenerationFailed ≠ FailureKind.StrategyNotFound) ∧
    (∀ (k : FailureKind) (d : String),
      construct k d = LLMNotLoadedException d ∨
      construct k d = QueryGenerationException d ∨
      construct k d = StrategyNotFoundException d) := by
  refine ⟨?_, by refine ⟨?_, ?_, ?_⟩ <;> decide, ?_⟩
  · intro k
    cases k with
    | ModelNotLoaded => exact Or.inl rfl
    | QueryGenerationFailed => exact Or.inr (Or.inl rfl)
    | StrategyNotFound => exact Or.inr (Or.inr rfl)
  · intro k d
    cases k with
    | ModelNotLoaded => exact Or.inl rfl
    | QueryGenerationFailed => exact Or.inr (Or.inl rfl)
    | StrategyNotFound => exact Or.inr (Or.inr rfl)

/-- Claim C8: once constructed, an instance's code and message are fixed —
running any further module operation leaves every previously constructed
instance in the state unchanged (still present with the same fields), the
only state change is the appending of the fresh instance, and the fresh
instance's message equals the construction-time pure derivation with the
per-kind code at its head; nothing re-derives or alters a stored message. -/
theorem claim_C8_instances_immutable
    (op : ModuleOp) (σ : List FailureInstance) (f : FailureInstance)
    (h : f ∈ σ) :
    f ∈ (runOp op σ).2 ∧
    (runOp op σ).2 = σ ++ [(runOp op σ).1] ∧
    (runOp op σ).1.message = render op.kind op.detail ∧
    leadingCode (runOp op σ).1.message = some (codeOf op.kind) := by
  refine ⟨List.mem_append_left _ h, rfl, ?_, ?_⟩
  · cases op <;> rfl
  · cases op with
    | llmNotLoaded d => exact leadingCode_llmV (.str d)
    | strategyNotFound d => exact leadingCode_snfV (.str d)
    | queryGeneration d => exact leadingCode_qgV (.str d)

/-- Witness for claim C8: a state holding one previously constructed
instance, against which a second operation runs. -/
theorem claim_C8_instances_immutable_witness :
    QueryGenerationException "y"
      ∈ (runOp (.llmNotLoaded "x") [QueryGenerationException "y"]).2 ∧
    (runOp (.llmNotLoaded "x") [QueryGenerationException "y"]).2
      = [QueryGenerationException "y"]
        ++ [(runOp (.llmNotLoaded "x") [QueryGenerationException "y"]).1] ∧
    (runOp (.llmNotLoaded "x") [QueryGenerationException "y"]).1.message
      = render (ModuleOp.llmNotLoaded "x").kind (ModuleOp.llmNotLoaded "x").detail ∧
    leadingCode (runOp (.llmNotLoaded "x") [QueryGenerationException "y"]).1.message
      = some (codeOf (ModuleOp.llmNotLoaded "x").kind) :=
  claim_C8_instances_immutable (.llmNotLoaded "x") [QueryGenerationException "y"]
    (QueryGenerationException "y") (List.mem_singleton.mpr rfl)

end CustomErrors

namespace CustomErrors

/-- Claim C9: each constructor passes the raw, unformatted detail to the
base `Exception` initializer — the stored `args` tuple is exactly the single
raw detail, the standard string rendering of the exception returns that raw
detail itself, and this rendering never coincides with the formatted
`message` attribute. -/
theorem claim_C9_args_hold_raw_detail :
    ∀ d : String,
      (LLMNotLoadedException d).args = [PyValue.str d] ∧
      pyExceptionStr (LLMNotLoadedException d) = d ∧
      pyExceptionStr (LLMNotLoadedException d) ≠ (LLMNotLoadedException d).message ∧
      (StrategyNotFoundException d).args = [PyValue.str d] ∧
      pyExceptionStr (StrategyNotFoundException d) = d ∧
      pyExceptionStr (StrategyNotFoundException d) ≠ (StrategyNotFoundException d).message ∧
      (QueryGenerationException d).args = [PyValue.str d] ∧
      pyExceptionStr (QueryGenerationException d) = d ∧
      pyExceptionStr (QueryGenerationException d) ≠ (QueryGenerationException d).message := by
  intro d
  refine ⟨rfl, rfl, ?_, rfl, rfl, ?_, rfl, rfl, ?_⟩
  · show d ≠ (LLMNotLoadedException d).message
    exact ne_of_length_lt (by rw [length_message_llm d]; omega)
  · show d ≠ (StrategyNotFoundException d).message
    exact ne_of_length_lt (by rw [length_message_snf d]; omega)
  · show d ≠ (QueryGenerationException d).message
    exact ne_of_length_lt (by rw [length_message_qg d]; omega)

/-- Claim C10: the constructors accept any Python value, not only strings —
for every modelled value (including integers and None) construction succeeds
and the value's default string formatting is interpolated verbatim at the
detail position of the template. -/
theorem claim_C10_any_value_accepted :
    (∀ v : PyValue,
      (LLMNotLoadedExceptionV v).args = [v] ∧
      (LLMNotLoadedExceptionV v).message
        = "[501] The LLM " ++ pyStr v ++ " was not loaded correctly") ∧
    (∀ v : PyValue,
      (StrategyNotFoundExceptionV v).args = [v] ∧
      (StrategyNotFoundExceptionV v).message
        = "[503] The selected strategy " ++ pyStr v ++ " doesn't exist") ∧
    (∀ v : PyValue,
      (QueryGenerationExceptionV v).args = [v] ∧
      (QueryGenerationExceptionV v).message
        = "[502] Failed to generate query " ++ pyStr v ++ ".") ∧
    (LLMNotLoadedExceptionV (.int 42)).message
      = "[501] The LLM 42 was not loaded correctly" ∧
    (LLMNotLoadedExceptionV .none).message
      = "[501] The LLM None was not loaded correctly" ∧
    (QueryGenerationExceptionV (.int (-7))).message
      = "[502] Failed to generate query -7." ∧
    (StrategyNotFoundExceptionV (.bool true)).message
      = "[503] The selected strategy True doesn't exist" := by
  refine ⟨fun v => ⟨rfl, rfl⟩, fun v => ⟨rfl, rfl⟩, fun v => ⟨rfl, rfl⟩,
          ?_, ?_, ?_, ?_⟩ <;> decide

end CustomErrors
